import Mathlib

/-!
Shallow embedding of the Shopify-to-Stripe ACH webhook service (src/main.py).

The service receives Shopify webhooks, verifies their HMAC signature,
filters for the manual ACH gateway, resolves the order amount from the
Shopify Admin API, creates a Stripe payment link, writes it back to the
order note and optionally emails the customer.

External effects (HTTP calls to Shopify and Stripe, SMTP) are modelled by
oracle values describing the response of each outbound call, and the
handler returns, besides the HTTP response, the list of outbound calls it
issued, in order.  Cryptographic primitives (HMAC-SHA256, base64) are
parameters of the embedding; the HMAC computation returns in `Except` so
that an internal failure of the primitive (the `except` branch of the
Python code) is representable.
-/

/-- Python truthiness of an optional string: `None` and `""` are falsy. -/
def pyTruthy : Option String → Bool
  | none => false
  | some s => decide (s ≠ "")

/-- Python `str()` of an optional string, as interpolated into an f-string:
`None` renders as the text `"None"`. -/
def pyStrOfOpt : Option String → String
  | none => "None"
  | some s => s

/-- Numeric value of a list of decimal digit characters; `none` if any
character is not a digit.  The empty list has value 0 (callers guard
against emptiness where Python `float` would reject it). -/
def digitsVal : List Char → Option Nat
  | [] => some 0
  | c :: cs =>
    if c.isDigit then (digitsVal cs).map (fun n => (c.toNat - 48) * 10 ^ cs.length + n)
    else none

/-- Model of Python `float(s)` restricted to plain decimal literals
(optional leading minus, integer digits, optional dot and fraction
digits), returning the exact rational value; any other shape is `none`
(Python raises `ValueError`, which the caller catches).  Binary-float
rounding is not modelled: on the literals appearing in the claims the
value is exactly representable, so the rational model agrees with the
code. -/
def parseDecimal (s : String) : Option ℚ :=
  let core : List Char → Option ℚ := fun cs =>
    let ip := cs.takeWhile Char.isDigit
    let rest := cs.dropWhile Char.isDigit
    match rest with
    | [] =>
      if ip.isEmpty then none
      else (digitsVal ip).map (fun n => (n : ℚ))
    | '.' :: fp =>
      if ip.isEmpty && fp.isEmpty then none
      else
        match digitsVal ip, digitsVal fp with
        | some n, some m => some ((n : ℚ) + (m : ℚ) / (10 : ℚ) ^ fp.length)
        | _, _ => none
    | _ => none
  match s.data with
  | '-' :: cs => (core cs).map (fun q => -q)
  | cs => core cs

/-- Model of Python `int(q)`: truncation toward zero. -/
def pyInt (q : ℚ) : Int :=
  if q < 0 then -(Int.floor (-q)) else Int.floor q

/-- The environment-variable configuration read at module load
(src/main.py lines 22-34).  Each optional value is `none` when the
variable is unset. -/
structure Config where
  SHOPIFY_WEBHOOK_SECRET : Option String
  MANUAL_PAYMENT_GATEWAY_NAME : String
  SHOPIFY_STORE_URL : Option String
  SHOPIFY_API_TOKEN : Option String
  SMTP_USER : Option String
  SMTP_PASSWORD : Option String
deriving DecidableEq

/-- `verify_webhook_signature(data, hmac_header)` (src/main.py lines
147-177).  `hmacSha256 key data` models
`hmac.new(key.encode(), data, hashlib.sha256).digest()`; it returns in
`Except` so that a raised exception inside the `try` block is
representable, in which case the function returns `false`.  `b64encode`
models `base64.b64encode(..).decode()`.  `hmac.compare_digest` is a
constant-time string equality; its value semantics is plain equality. -/
def verify_webhook_signature
    (hmacSha256 : String → List Nat → Except String (List Nat))
    (b64encode : List Nat → String)
    (SHOPIFY_WEBHOOK_SECRET : Option String)
    (data : List Nat) (hmac_header : Option String) : Bool :=
  match hmac_header with
  | none => false
  | some hdr =>
    if hdr = "" then false
    else
      match SHOPIFY_WEBHOOK_SECRET with
      | none => true
      | some sec =>
        if sec = "" then true
        else
          match hmacSha256 sec data with
          | Except.error _ => false
          | Except.ok dg => decide (b64encode dg = hdr)

/-- Result of an outbound HTTP request: `ok` carries the decoded JSON
body of a 2xx response; `err` covers every transport-level failure
(timeout, connection error, non-2xx status via `raise_for_status`),
which in the Python code surfaces as a raised exception. -/
inductive HttpResult (α : Type) where
  | ok (body : α)
  | err (msg : String)
deriving DecidableEq

/-- The fields of the Shopify order object that `get_order_amount`
inspects: the nested `total_price_set.shop_money.amount` path (flattened,
since each step is a `.get` with `{}` default) and the flat
`total_price`. -/
structure OrderInfo where
  total_price_set_shop_money_amount : Option String
  total_price : Option String
deriving DecidableEq

/-- Body of `GET /admin/api/2024-07/orders/{id}.json`: the `order` key,
`none` when absent or falsy. -/
structure OrdersGetBody where
  order : Option OrderInfo
deriving DecidableEq

/-- `get_order_amount(order_id)` (src/main.py lines 50-80), as a function
of the configuration and of the upstream response for this order.  All
failure modes — missing configuration, transport failure, missing
`order` key, neither amount field present, unparsable amount string —
return `none`. -/
def get_order_amount (SHOPIFY_STORE_URL SHOPIFY_API_TOKEN : Option String)
    (resp : HttpResult OrdersGetBody) : Option ℚ :=
  if pyTruthy SHOPIFY_STORE_URL = false ∨ pyTruthy SHOPIFY_API_TOKEN = false then none
  else
    match resp with
    | HttpResult.err _ => none
    | HttpResult.ok body =>
      match body.order with
      | none => none
      | some info =>
        let total_price_usd_str :=
          match info.total_price_set_shop_money_amount with
          | some a => some a
          | none => info.total_price
        match total_price_usd_str with
        | none => none
        | some str => parseDecimal str

/-- `update_shopify_order_note(order_id, note)` (src/main.py lines
125-145): returns `false` without calling out when the Shopify
configuration is missing, otherwise the success of the PUT request
(`put_ok`). -/
def update_shopify_order_note (SHOPIFY_STORE_URL SHOPIFY_API_TOKEN : Option String)
    (order_id : Int) (note : String) (put_ok : Bool) : Bool :=
  if pyTruthy SHOPIFY_STORE_URL = false ∨ pyTruthy SHOPIFY_API_TOKEN = false then false
  else put_ok

/-- `send_payment_email(...)` (src/main.py lines 82-123): returns `false`
without attempting delivery when SMTP credentials are missing, otherwise
the success of the SMTP exchange (`smtp_ok`; a raised exception is the
`false` case). -/
def send_payment_email (SMTP_USER SMTP_PASSWORD : Option String)
    (smtp_ok : Bool) : Bool :=
  if pyTruthy SMTP_USER = false ∨ pyTruthy SMTP_PASSWORD = false then false
  else smtp_ok

/-- The fields of the webhook payload that the handler reads:
`data.get("id", 0)` (so `id` is optional), `payment_gateway_names`, and
`customer.email` / `customer.first_name` (flattened `.get` chains with
`{}` defaults). -/
structure Payload where
  id : Option Int
  payment_gateway_names : List String
  customer_email : Option String
  customer_name : Option String
deriving DecidableEq

/-- Outcome of `json.loads(body)` plus the field extraction at src/main.py
lines 205-214: `invalidJson` is the `JSONDecodeError` branch (400),
`extractFailed` the generic `except` branch (400, e.g. a JSON body that is
not an object). -/
inductive ParseOutcome where
  | invalidJson
  | extractFailed
  | ok (data : Payload)
deriving DecidableEq

/-- An outbound call issued by the order-created handler, in issue order:
the Shopify order fetch, the Stripe payment-link creation (with the
minor-unit amount submitted), the order-note update, and the customer
email attempt. -/
inductive Call where
  | fetchAmount (order_id : Int)
  | createLink (order_id : Int) (amount_cents : Int)
  | updateNote (order_id : Int) (note : String)
  | sendEmail (recipient : String) (order_id : Int) (url : String)
deriving DecidableEq

/-- An HTTP response: `PlainTextResponse(body, status_code)`. -/
structure Resp where
  body : String
  status_code : Nat
deriving DecidableEq

/-- Outcome of `stripe.PaymentLink.create(...)`: the link URL on success,
`stripeErr` for a raised `stripe.error.StripeError` (carrying
`e.user_message`), `otherErr` for any other raised exception. -/
inductive CreateResult where
  | ok (url : String)
  | stripeErr (user_message : String)
  | otherErr (msg : String)
deriving DecidableEq

/-- Oracle describing the outcome of each outbound call the handler may
issue for this event. -/
structure Upstream where
  orders_get : HttpResult OrdersGetBody
  payment_link_create : CreateResult
  order_put_ok : Bool
  smtp_ok : Bool
deriving DecidableEq

/-- The note text written to the order (src/main.py lines 255-259). -/
def note_text (payment_link_url : String) : String :=
  "Thank you for selecting Manual ACH Payment. To complete your transaction, please click the secure payment link below. You will be redirected to Stripe to enter your bank details.\n\n👉 SECURE PAYMENT LINK:\n" ++ payment_link_url

/-- The order-created handler after successful body extraction
(src/main.py lines 217-276): topic and field validation, gateway filter,
amount resolution, Stripe link creation, order-note update and customer
email.  Returns the response and the list of outbound calls issued. -/
def handle_order_event (cfg : Config) (up : Upstream) (data : Payload)
    (x_shopify_topic : Option String) : Resp × List Call :=
  let order_id : Int := data.id.getD 0
  let gateway : Option String := data.payment_gateway_names.head?
  if x_shopify_topic ≠ some "orders/create" then
    (⟨"Wrong topic received: " ++ pyStrOfOpt x_shopify_topic, 200⟩, [])
  else if order_id = 0 ∨ pyTruthy gateway = false then
    (⟨"Missing order ID or gateway in payload.", 400⟩, [])
  else if gateway.getD "" ≠ cfg.MANUAL_PAYMENT_GATEWAY_NAME then
    (⟨"Processing ignored.", 200⟩, [])
  else
    match get_order_amount cfg.SHOPIFY_STORE_URL cfg.SHOPIFY_API_TOKEN up.orders_get with
    | none =>
      (⟨"Could not retrieve valid amount for order " ++ toString order_id ++ ".", 200⟩,
       [Call.fetchAmount order_id])
    | some amount_float =>
      if amount_float ≤ 0 then
        (⟨"Could not retrieve valid amount for order " ++ toString order_id ++ ".", 200⟩,
         [Call.fetchAmount order_id])
      else
        let amount_cents : Int := pyInt (amount_float * 100)
        match up.payment_link_create with
        | CreateResult.stripeErr m =>
          (⟨"Stripe error: " ++ m, 200⟩,
           [Call.fetchAmount order_id, Call.createLink order_id amount_cents])
        | CreateResult.otherErr _ =>
          (⟨"Unhandled server error.", 200⟩,
           [Call.fetchAmount order_id, Call.createLink order_id amount_cents])
        | CreateResult.ok url =>
          if update_shopify_order_note cfg.SHOPIFY_STORE_URL cfg.SHOPIFY_API_TOKEN
              order_id (note_text url) up.order_put_ok then
            if pyTruthy data.customer_email then
              (⟨"Payment link generated and order updated.", 200⟩,
               [Call.fetchAmount order_id, Call.createLink order_id amount_cents,
                Call.updateNote order_id (note_text url),
                Call.sendEmail (data.customer_email.getD "") order_id url])
            else
              (⟨"Payment link generated and order updated.", 200⟩,
               [Call.fetchAmount order_id, Call.createLink order_id amount_cents,
                Call.updateNote order_id (note_text url)])
          else
            (⟨"Link generated, but failed to update order.", 200⟩,
             [Call.fetchAmount order_id, Call.createLink order_id amount_cents,
              Call.updateNote order_id (note_text url)])

/-- `shopify_webhook` (src/main.py lines 188-276): HMAC verification on
the raw body, then body extraction (`jsonParse` is the outcome of
`json.loads` on these bytes), then `handle_order_event`.  The handler is
a pure function of the request and the oracles: it consults no
order-keyed registry or cache of previously created links. -/
def shopify_webhook
    (hmacSha256 : String → List Nat → Except String (List Nat))
    (b64encode : List Nat → String)
    (cfg : Config) (up : Upstream)
    (jsonParse : List Nat → ParseOutcome)
    (body_bytes : List Nat)
    (x_shopify_hmac_sha256 x_shopify_topic : Option String) : Resp × List Call :=
  if verify_webhook_signature hmacSha256 b64encode cfg.SHOPIFY_WEBHOOK_SECRET
      body_bytes x_shopify_hmac_sha256 = false then
    (⟨"Unauthorized", 401⟩, [])
  else
    match jsonParse body_bytes with
    | ParseOutcome.invalidJson => (⟨"Invalid JSON payload.", 400⟩, [])
    | ParseOutcome.extractFailed => (⟨"Data extraction failed.", 400⟩, [])
    | ParseOutcome.ok data => handle_order_event cfg up data x_shopify_topic

/-- Number of Stripe payment-link creation calls in a call trace. -/
def countCreate (trace : List Call) : Nat :=
  trace.countP (fun c => match c with | Call.createLink _ _ => true | _ => false)

/-- Number of email-send attempts in a call trace. -/
def countEmail (trace : List Call) : Nat :=
  trace.countP (fun c => match c with | Call.sendEmail _ _ _ => true | _ => false)

/-! ### Concrete instances used to evaluate the handler -/

/-- A fully configured deployment. -/
def exCfg : Config :=
  ⟨some "whsec", "Pay via ACH", some "shop.example.com", some "token", some "user", some "pass"⟩

/-- A well-formed order-created payload for order 1001 paid via the
manual ACH gateway, with a customer contact address. -/
def exPayload : Payload :=
  ⟨some 1001, ["Pay via ACH"], some "customer@example.com", some "Ann"⟩

/-- An upstream world in which the order fetch returns a total of
"150.00", Stripe link creation yields the given URL, and the order-note
update succeeds or fails as given. -/
def exUp (create_url : String) (put_ok : Bool) : Upstream :=
  ⟨HttpResult.ok ⟨some ⟨some "150.00", none⟩⟩, CreateResult.ok create_url, put_ok, true⟩

/-- A concrete HMAC primitive (never failing) for evaluating the
handler: it prepends the key length to the body. -/
def exHmac : String → List Nat → Except String (List Nat) :=
  fun key dataBytes => Except.ok (key.length :: dataBytes)

/-- A concrete base64 encoder for evaluating the handler. -/
def exB64 : List Nat → String :=
  fun digest => String.join (digest.map (fun n => toString n))

/-- The body-parse oracle returning `exPayload` on every body. -/
def exParse : List Nat → ParseOutcome :=
  fun _ => ParseOutcome.ok exPayload

/-- Modelled from the spec: the payment-completed endpoint
(`POST /payment-events`) is not present in the provided source tree, so
its session object is modelled from §6 of the spec: payment status,
settled amount in integer minor units, and the correlation id stored in
the metadata map under the fixed key (`none` when the key is absent). -/
structure StripeSession where
  payment_status : String
  amount_total : Int
  metadata_order_id : Option String
deriving DecidableEq

/-- Modelled from the spec: the processor event envelope of the
payment-completed endpoint, carrying the event type string and the
nested session object. -/
structure StripeEvent where
  event_type : String
  session : StripeSession
deriving DecidableEq

/-- An outbound reconciliation call of the payment-completed path. -/
inductive ReconcileCall where
  | markPaid (orderRef : String) (amount : Int)
deriving DecidableEq

/-- Modelled from the spec: the payment-completed handler
(`POST /payment-events`), absent from the provided source tree.  Per §6
and §4.6 of the spec: 500 if the shared verification secret is
unconfigured server-side; 400 if the processor signature is invalid
(`signature_valid` is the outcome of the processor's own signature
scheme); otherwise, for a completed-and-paid session, the order
reference is pulled from the correlation metadata and `markPaid` is
called with the settled amount; a missing correlation id aborts with a
logged error (the `Bool` component) but still acknowledges with 200.
Returns (response, reconciliation calls, error-logged flag). -/
def stripe_webhook (stripe_webhook_secret : Option String)
    (signature_valid : Bool) (evt : StripeEvent) :
    Resp × List ReconcileCall × Bool :=
  if pyTruthy stripe_webhook_secret = false then
    (⟨"Webhook secret not configured", 500⟩, [], false)
  else if signature_valid = false then
    (⟨"Invalid signature", 400⟩, [], false)
  else if evt.event_type = "checkout.session.completed" ∧ evt.session.payment_status = "paid" then
    match evt.session.metadata_order_id with
    | none => (⟨"Acknowledged", 200⟩, [], true)
    | some orderRef =>
      (⟨"Acknowledged", 200⟩, [ReconcileCall.markPaid orderRef evt.session.amount_total], false)
  else
    (⟨"Acknowledged", 200⟩, [], false)

/-! ### Evaluation lemmas -/

/-- `float("150.00")` is exactly 150. -/
theorem parseDecimal_onefifty : parseDecimal "150.00" = some 150 := by
  rw [show parseDecimal "150.00" = some ((150 : ℚ) + (0 : ℚ) / (10 : ℚ) ^ 2) from rfl]
  norm_num

/-- `float("0.00")` is exactly 0. -/
theorem parseDecimal_zeropoint : parseDecimal "0.00" = some 0 := by
  rw [show parseDecimal "0.00" = some ((0 : ℚ) + (0 : ℚ) / (10 : ℚ) ^ 2) from rfl]
  norm_num

/-- `int(150.0 * 100)` is 15000. -/
theorem pyInt_onefifty : pyInt (150 * 100) = 15000 := by
  unfold pyInt
  norm_num

/-- After a successful signature check and body parse, the endpoint
defers to `handle_order_event`. -/
theorem shopify_webhook_authenticated
    (hmacSha256 : String → List Nat → Except String (List Nat))
    (b64encode : List Nat → String) (cfg : Config) (up : Upstream)
    (jsonParse : List Nat → ParseOutcome) (body_bytes : List Nat)
    (hmac_hdr topic : Option String) (data : Payload)
    (hver : verify_webhook_signature hmacSha256 b64encode cfg.SHOPIFY_WEBHOOK_SECRET
      body_bytes hmac_hdr = true)
    (hparse : jsonParse body_bytes = ParseOutcome.ok data) :
    shopify_webhook hmacSha256 b64encode cfg up jsonParse body_bytes hmac_hdr topic
      = handle_order_event cfg up data topic := by
  simp [shopify_webhook, hver, hparse]

/-! ### Claims -/

/-- Claim C3: for every raw body, supplied signature and shared secret,
`verify_webhook_signature` returns false when the supplied signature is
absent; when the shared secret is unconfigured it returns true
(fail-open); otherwise it returns true iff the base64 encoding of the
HMAC-SHA256 of the exact raw body under the shared secret equals the
supplied signature (the constant-time comparison has plain string
equality as its value semantics). -/
theorem C3_verify_signature_spec
    (f : String → List Nat → List Nat) (b64encode : List Nat → String)
    (secret : Option String) (data : List Nat) (hmac_header : Option String) :
    (hmac_header = none →
      verify_webhook_signature (fun k d => Except.ok (f k d)) b64encode secret data
        hmac_header = false) ∧
    (∀ h, hmac_header = some h → h ≠ "" → pyTruthy secret = false →
      verify_webhook_signature (fun k d => Except.ok (f k d)) b64encode secret data
        hmac_header = true) ∧
    (∀ h sec, hmac_header = some h → h ≠ "" → secret = some sec → sec ≠ "" →
      (verify_webhook_signature (fun k d => Except.ok (f k d)) b64encode secret data
        hmac_header = true ↔ b64encode (f sec data) = h)) := by
  refine ⟨?_, ?_, ?_⟩
  · intro h
    subst h
    rfl
  · intro h hh hne hsec
    subst hh
    cases secret with
    | none => simp [verify_webhook_signature, hne]
    | some s =>
      simp [pyTruthy] at hsec
      simp [verify_webhook_signature, hne, hsec]
  · intro h sec hh hne hs hsne
    subst hh
    subst hs
    simp [verify_webhook_signature, hne, hsne]

/-- Witness for C3 at a concrete input: with secret "whsec" and body
[1, 2], the supplied signature matching the encoded digest is accepted. -/
theorem C3_verify_signature_spec_witness :
    verify_webhook_signature (fun k d => Except.ok (k.length :: d)) exB64
      (some "whsec") [1, 2] (some "512") = true :=
  ((C3_verify_signature_spec (fun k d => k.length :: d) exB64
      (some "whsec") [1, 2] (some "512")).2.2 "512" "whsec" rfl (by decide) rfl
      (by decide)).mpr (by decide)

/-- Claim C10: `verify_webhook_signature` is total: every input yields a
boolean, and an internal failure of the HMAC computation (a raised
exception inside the try block) yields false. -/
theorem C10_verify_total_fail_closed
    (hmacSha256 : String → List Nat → Except String (List Nat))
    (b64encode : List Nat → String)
    (secret : Option String) (data : List Nat) (hmac_header : Option String) :
    (verify_webhook_signature hmacSha256 b64encode secret data hmac_header = true ∨
     verify_webhook_signature hmacSha256 b64encode secret data hmac_header = false) ∧
    (∀ h sec e, hmac_header = some h → h ≠ "" → secret = some sec → sec ≠ "" →
      hmacSha256 sec data = Except.error e →
      verify_webhook_signature hmacSha256 b64encode secret data hmac_header = false) := by
  constructor
  · exact Bool.eq_false_or_eq_true _
  · intro h sec e hh hne hs hsne herr
    subst hh
    subst hs
    simp [verify_webhook_signature, hne, hsne, herr]

/-- Witness for C10 at a concrete input: an HMAC primitive that raises
makes verification return false even for a configured secret and a
present header. -/
theorem C10_verify_total_fail_closed_witness :
    verify_webhook_signature (fun _ _ => Except.error "boom") exB64
      (some "whsec") [1] (some "sig") = false :=
  (C10_verify_total_fail_closed (fun _ _ => Except.error "boom") exB64
      (some "whsec") [1] (some "sig")).2 "sig" "whsec" "boom" rfl (by decide) rfl
      (by decide) rfl

/-- Claim C4: a request whose signature does not verify against the
delivered body is answered 401 Unauthorized with an empty outbound-call
trace: the order system is not queried and no artifact is created. -/
theorem C4_unauthenticated_rejected
    (hmacSha256 : String → List Nat → Except String (List Nat))
    (b64encode : List Nat → String) (cfg : Config) (up : Upstream)
    (jsonParse : List Nat → ParseOutcome) (body_bytes : List Nat)
    (hmac_hdr topic : Option String)
    (hver : verify_webhook_signature hmacSha256 b64encode cfg.SHOPIFY_WEBHOOK_SECRET
      body_bytes hmac_hdr = false) :
    shopify_webhook hmacSha256 b64encode cfg up jsonParse body_bytes hmac_hdr topic
      = (⟨"Unauthorized", 401⟩, []) := by
  simp [shopify_webhook, hver]

/-- Witness for C4 at a concrete input: a wrong signature over the
delivered body yields 401 and no outbound calls. -/
theorem C4_unauthenticated_rejected_witness :
    shopify_webhook exHmac exB64 exCfg (exUp "https://buy.stripe.example/a" true)
      exParse [1, 2] (some "999") (some "orders/create")
      = (⟨"Unauthorized", 401⟩, []) :=
  C4_unauthenticated_rejected exHmac exB64 exCfg (exUp "https://buy.stripe.example/a" true)
    exParse [1, 2] (some "999") (some "orders/create") (by decide)

/-- Claim C5: an authenticated, well-formed order-created event whose
first payment-method name differs from the configured manual-gateway
name is acknowledged with a 200 no-op and an empty outbound-call trace. -/
theorem C5_wrong_gateway_noop
    (hmacSha256 : String → List Nat → Except String (List Nat))
    (b64encode : List Nat → String) (cfg : Config) (up : Upstream)
    (jsonParse : List Nat → ParseOutcome) (body_bytes : List Nat)
    (hmac_hdr : Option String) (data : Payload) (g : String)
    (hver : verify_webhook_signature hmacSha256 b64encode cfg.SHOPIFY_WEBHOOK_SECRET
      body_bytes hmac_hdr = true)
    (hparse : jsonParse body_bytes = ParseOutcome.ok data)
    (hid : data.id.getD 0 ≠ 0)
    (hgw : data.payment_gateway_names.head? = some g)
    (hg : g ≠ "")
    (hmismatch : g ≠ cfg.MANUAL_PAYMENT_GATEWAY_NAME) :
    shopify_webhook hmacSha256 b64encode cfg up jsonParse body_bytes hmac_hdr
      (some "orders/create") = (⟨"Processing ignored.", 200⟩, []) := by
  rw [shopify_webhook_authenticated hmacSha256 b64encode cfg up jsonParse body_bytes
    hmac_hdr (some "orders/create") data hver hparse]
  simp [handle_order_event, hid, hgw, pyTruthy, hg, hmismatch]

/-- Witness for C5 at a concrete input: a card-gateway order is ignored
with 200 and no outbound calls. -/
theorem C5_wrong_gateway_noop_witness :
    shopify_webhook exHmac exB64 exCfg (exUp "https://buy.stripe.example/a" true)
      (fun _ => ParseOutcome.ok ⟨some 1001, ["credit_card"], none, none⟩) []
      (some "5") (some "orders/create") = (⟨"Processing ignored.", 200⟩, []) :=
  C5_wrong_gateway_noop exHmac exB64 exCfg (exUp "https://buy.stripe.example/a" true)
    (fun _ => ParseOutcome.ok ⟨some 1001, ["credit_card"], none, none⟩) []
    (some "5") ⟨some 1001, ["credit_card"], none, none⟩ "credit_card"
    (by decide) rfl (by decide) rfl (by decide) (by decide)

/-- Claim C9: for an authenticated request whose body parses and whose
topic is orders/create, a missing or zero order id, or a missing or
empty payment-method-name array, yields 400 with no outbound calls;
moreover an order id of 0 is indistinguishable from a missing id, since
both read as 0 through the defaulted lookup. -/
theorem C9_missing_fields_rejected
    (hmacSha256 : String → List Nat → Except String (List Nat))
    (b64encode : List Nat → String) (cfg : Config) (up : Upstream)
    (jsonParse : List Nat → ParseOutcome) (body_bytes : List Nat)
    (hmac_hdr : Option String) (data : Payload)
    (hver : verify_webhook_signature hmacSha256 b64encode cfg.SHOPIFY_WEBHOOK_SECRET
      body_bytes hmac_hdr = true)
    (hparse : jsonParse body_bytes = ParseOutcome.ok data) :
    ((data.id = none ∨ data.id = some 0 ∨ data.payment_gateway_names = []) →
      shopify_webhook hmacSha256 b64encode cfg up jsonParse body_bytes hmac_hdr
        (some "orders/create") = (⟨"Missing order ID or gateway in payload.", 400⟩, [])) ∧
    (∀ (gs : List String) (ce cn : Option String) (topic : Option String),
      handle_order_event cfg up ⟨some 0, gs, ce, cn⟩ topic
        = handle_order_event cfg up ⟨none, gs, ce, cn⟩ topic) := by
  constructor
  · intro hbad
    rw [shopify_webhook_authenticated hmacSha256 b64encode cfg up jsonParse body_bytes
      hmac_hdr (some "orders/create") data hver hparse]
    rcases hbad with h | h | h <;> simp [handle_order_event, h, pyTruthy]
  · intro gs ce cn topic
    rfl

/-- Witness for C9 at a concrete input: a payload with no order id is
rejected with 400 and no outbound calls. -/
theorem C9_missing_fields_rejected_witness :
    shopify_webhook exHmac exB64 exCfg (exUp "https://buy.stripe.example/a" true)
      (fun _ => ParseOutcome.ok ⟨none, ["Pay via ACH"], none, none⟩) []
      (some "5") (some "orders/create")
      = (⟨"Missing order ID or gateway in payload.", 400⟩, []) :=
  (C9_missing_fields_rejected exHmac exB64 exCfg (exUp "https://buy.stripe.example/a" true)
    (fun _ => ParseOutcome.ok ⟨none, ["Pay via ACH"], none, none⟩) []
    (some "5") ⟨none, ["Pay via ACH"], none, none⟩ (by decide) rfl).1 (Or.inl rfl)

/-- Claim C2: the payment-completed endpoint responds 500 when the
shared verification secret is unconfigured, 400 when the processor
signature is invalid, and otherwise acknowledges with 200, calling
markPaid with the order reference from the correlation metadata and the
settled amount, or logging an error without any call when the
correlation id is missing. -/
theorem C2_payment_events_behavior
    (secret : Option String) (sig_valid : Bool) (evt : StripeEvent) :
    (pyTruthy secret = false →
      stripe_webhook secret sig_valid evt
        = (⟨"Webhook secret not configured", 500⟩, [], false)) ∧
    (pyTruthy secret = true → sig_valid = false →
      stripe_webhook secret sig_valid evt = (⟨"Invalid signature", 400⟩, [], false)) ∧
    (∀ orderRef, pyTruthy secret = true → sig_valid = true →
      evt.event_type = "checkout.session.completed" →
      evt.session.payment_status = "paid" →
      evt.session.metadata_order_id = some orderRef →
      stripe_webhook secret sig_valid evt
        = (⟨"Acknowledged", 200⟩,
           [ReconcileCall.markPaid orderRef evt.session.amount_total], false)) ∧
    (pyTruthy secret = true → sig_valid = true →
      evt.event_type = "checkout.session.completed" →
      evt.session.payment_status = "paid" →
      evt.session.metadata_order_id = none →
      stripe_webhook secret sig_valid evt = (⟨"Acknowledged", 200⟩, [], true)) := by
  refine ⟨?_, ?_, ?_, ?_⟩
  · intro hsec
    simp [stripe_webhook, hsec]
  · intro hsec hsig
    simp [stripe_webhook, hsec, hsig]
  · intro orderRef hsec hsig htype hstatus hmeta
    simp [stripe_webhook, hsec, hsig, htype, hstatus, hmeta]
  · intro hsec hsig htype hstatus hmeta
    simp [stripe_webhook, hsec, hsig, htype, hstatus, hmeta]

/-- Witness for C2 at a concrete input: a signed completed session with
correlation id "1001" and settled amount 15000 triggers markPaid. -/
theorem C2_payment_events_behavior_witness :
    stripe_webhook (some "whsec") true
      ⟨"checkout.session.completed", ⟨"paid", 15000, some "1001"⟩⟩
      = (⟨"Acknowledged", 200⟩, [ReconcileCall.markPaid "1001" 15000], false) :=
  (C2_payment_events_behavior (some "whsec") true
      ⟨"checkout.session.completed", ⟨"paid", 15000, some "1001"⟩⟩).2.2.1 "1001"
    (by decide) rfl rfl rfl rfl

/-- Claim C7 counterexample: in the code both a transport-level failure
and an order with neither amount field yield the same value, None, so
the two outcomes are not distinct and the caller cannot distinguish
them. -/
theorem C7_counterexample_transport_equals_notfound :
    get_order_amount (some "shop.example.com") (some "token") (HttpResult.err "timeout")
      = get_order_amount (some "shop.example.com") (some "token")
          (HttpResult.ok ⟨some ⟨none, none⟩⟩) ∧
    get_order_amount (some "shop.example.com") (some "token") (HttpResult.err "timeout")
      = none := by
  constructor <;> rfl

/-- Claim C7 (amended): `get_order_amount` attempts the nested
total_price_set.shop_money.amount path first, falls back to the flat
total_price field when the primary is absent, and returns None when
neither yields a value; a transport-level failure also returns None,
the same outcome as not-found. -/
theorem C7_amended_resolver_behavior
    (storeUrl apiToken : Option String)
    (hstore : pyTruthy storeUrl = true) (htok : pyTruthy apiToken = true) :
    (∀ e, get_order_amount storeUrl apiToken (HttpResult.err e) = none) ∧
    (∀ info s, info.total_price_set_shop_money_amount = some s →
      get_order_amount storeUrl apiToken (HttpResult.ok ⟨some info⟩) = parseDecimal s) ∧
    (∀ info s, info.total_price_set_shop_money_amount = none → info.total_price = some s →
      get_order_amount storeUrl apiToken (HttpResult.ok ⟨some info⟩) = parseDecimal s) ∧
    (∀ info, info.total_price_set_shop_money_amount = none → info.total_price = none →
      get_order_amount storeUrl apiToken (HttpResult.ok ⟨some info⟩) = none) := by
  refine ⟨?_, ?_, ?_, ?_⟩
  · intro e
    simp [get_order_amount, hstore, htok]
  · intro info s hprim
    simp [get_order_amount, hstore, htok, hprim]
  · intro info s hprim hflat
    simp [get_order_amount, hstore, htok, hprim, hflat]
  · intro info hprim hflat
    simp [get_order_amount, hstore, htok, hprim, hflat]

/-- Witness for the amended C7 at a concrete input: with the primary
field absent, the flat total_price "150.00" is used. -/
theorem C7_amended_resolver_behavior_witness :
    get_order_amount (some "shop.example.com") (some "token")
      (HttpResult.ok ⟨some ⟨none, some "150.00"⟩⟩) = parseDecimal "150.00" :=
  (C7_amended_resolver_behavior (some "shop.example.com") (some "token")
      (by decide) (by decide)).2.2.1 ⟨none, some "150.00"⟩ "150.00" rfl rfl

/-- Claim C6: for an authenticated, matching order-created event, a
resolved amount string "150.00" leads to a Stripe creation call with
15000 minor units; a resolved "0.00", an absent amount, or any resolved
non-positive amount aborts with 200 and no creation call. -/
theorem C6_amount_derivation
    (hmacSha256 : String → List Nat → Except String (List Nat))
    (b64encode : List Nat → String) (cfg : Config) (up : Upstream)
    (jsonParse : List Nat → ParseOutcome) (body_bytes : List Nat)
    (hmac_hdr : Option String) (data : Payload) (g : String)
    (hver : verify_webhook_signature hmacSha256 b64encode cfg.SHOPIFY_WEBHOOK_SECRET
      body_bytes hmac_hdr = true)
    (hparse : jsonParse body_bytes = ParseOutcome.ok data)
    (hid : data.id.getD 0 ≠ 0)
    (hgw : data.payment_gateway_names.head? = some g)
    (hg : g ≠ "")
    (hmatch : g = cfg.MANUAL_PAYMENT_GATEWAY_NAME)
    (hstore : pyTruthy cfg.SHOPIFY_STORE_URL = true)
    (htok : pyTruthy cfg.SHOPIFY_API_TOKEN = true) :
    (up.orders_get = HttpResult.ok ⟨some ⟨some "150.00", none⟩⟩ →
      Call.createLink (data.id.getD 0) 15000 ∈
        (shopify_webhook hmacSha256 b64encode cfg up jsonParse body_bytes hmac_hdr
          (some "orders/create")).2) ∧
    (up.orders_get = HttpResult.ok ⟨some ⟨some "0.00", none⟩⟩ →
      shopify_webhook hmacSha256 b64encode cfg up jsonParse body_bytes hmac_hdr
        (some "orders/create")
        = (⟨"Could not retrieve valid amount for order "
            ++ toString (data.id.getD 0) ++ ".", 200⟩,
           [Call.fetchAmount (data.id.getD 0)])) ∧
    (up.orders_get = HttpResult.ok ⟨some ⟨none, none⟩⟩ →
      shopify_webhook hmacSha256 b64encode cfg up jsonParse body_bytes hmac_hdr
        (some "orders/create")
        = (⟨"Could not retrieve valid amount for order "
            ++ toString (data.id.getD 0) ++ ".", 200⟩,
           [Call.fetchAmount (data.id.getD 0)])) ∧
    (∀ q : ℚ, get_order_amount cfg.SHOPIFY_STORE_URL cfg.SHOPIFY_API_TOKEN up.orders_get
        = some q → q ≤ 0 →
      shopify_webhook hmacSha256 b64encode cfg up jsonParse body_bytes hmac_hdr
        (some "orders/create")
        = (⟨"Could not retrieve valid amount for order "
            ++ toString (data.id.getD 0) ++ ".", 200⟩,
           [Call.fetchAmount (data.id.getD 0)])) := by
  have hbridge := shopify_webhook_authenticated hmacSha256 b64encode cfg up jsonParse
    body_bytes hmac_hdr (some "orders/create") data hver hparse
  subst hmatch
  refine ⟨?_, ?_, ?_, ?_⟩
  · intro hresp
    have hamt : get_order_amount cfg.SHOPIFY_STORE_URL cfg.SHOPIFY_API_TOKEN up.orders_get
        = some 150 := by
      rw [hresp]
      simp [get_order_amount, hstore, htok, parseDecimal_onefifty]
    rw [hbridge]
    simp only [handle_order_event, hamt, hgw]
    rcases hc : up.payment_link_create with url | m | m
    all_goals simp [hc, hid, hgw, pyTruthy, hg, pyInt_onefifty,
      show ¬((150 : ℚ) ≤ 0) by norm_num]
    all_goals try split_ifs <;> simp
  · intro hresp
    have hamt : get_order_amount cfg.SHOPIFY_STORE_URL cfg.SHOPIFY_API_TOKEN up.orders_get
        = some 0 := by
      rw [hresp]
      simp [get_order_amount, hstore, htok, parseDecimal_zeropoint]
    rw [hbridge]
    simp [handle_order_event, hamt, hid, hgw, pyTruthy, hg]
  · intro hresp
    have hamt : get_order_amount cfg.SHOPIFY_STORE_URL cfg.SHOPIFY_API_TOKEN up.orders_get
        = none := by
      rw [hresp]
      simp [get_order_amount, hstore, htok]
    rw [hbridge]
    simp [handle_order_event, hamt, hid, hgw, pyTruthy, hg]
  · intro q hq hle
    rw [hbridge]
    simp [handle_order_event, hq, hle, hid, hgw, pyTruthy, hg]

/-- Witness for C6 at a concrete input: order 1001 with total "150.00"
produces a creation call for 15000 cents. -/
theorem C6_amount_derivation_witness :
    Call.createLink 1001 15000 ∈
      (shopify_webhook exHmac exB64 exCfg (exUp "https://buy.stripe.example/a" true)
        exParse [] (some "5") (some "orders/create")).2 :=
  (C6_amount_derivation exHmac exB64 exCfg (exUp "https://buy.stripe.example/a" true)
    exParse [] (some "5") exPayload "Pay via ACH"
    (by decide) rfl (by decide) rfl (by decide) rfl (by decide) (by decide)).1 rfl

/-- Claim C8 counterexample: at a concrete input with a customer contact
address present and a failed annotation, the handler acknowledges with
200 but makes no email-send attempt, refuting the claim that an email
attempt is made regardless of the annotation outcome. -/
theorem C8_counterexample_no_email_on_failed_annotation :
    pyTruthy exPayload.customer_email = true ∧
    shopify_webhook exHmac exB64 exCfg (exUp "https://buy.stripe.example/a" false)
      exParse [] (some "5") (some "orders/create")
      = (⟨"Link generated, but failed to update order.", 200⟩,
         [Call.fetchAmount 1001, Call.createLink 1001 15000,
          Call.updateNote 1001 (note_text "https://buy.stripe.example/a")]) ∧
    countEmail (shopify_webhook exHmac exB64 exCfg (exUp "https://buy.stripe.example/a" false)
      exParse [] (some "5") (some "orders/create")).2 = 0 := by
  have heq : shopify_webhook exHmac exB64 exCfg (exUp "https://buy.stripe.example/a" false)
      exParse [] (some "5") (some "orders/create")
      = (⟨"Link generated, but failed to update order.", 200⟩,
         [Call.fetchAmount 1001, Call.createLink 1001 15000,
          Call.updateNote 1001 (note_text "https://buy.stripe.example/a")]) := by
    rw [shopify_webhook_authenticated exHmac exB64 exCfg
      (exUp "https://buy.stripe.example/a" false) exParse [] (some "5")
      (some "orders/create") exPayload (by decide) rfl]
    simp [handle_order_event, exCfg, exPayload, exUp, get_order_amount, pyTruthy,
      parseDecimal_onefifty, pyInt_onefifty, update_shopify_order_note,
      show ¬((150 : ℚ) ≤ 0) by norm_num]
  refine ⟨by decide, heq, ?_⟩
  rw [heq]
  rfl

/-- Claim C8 (amended): for an authenticated, matching order-created
event whose artifact creation succeeds, a failed annotation still ends
in a 200 acknowledgment with the creation call retained and no email
attempt; when the annotation succeeds and a contact address is present,
an email attempt is made; and the outcome of the email attempt never
affects the handler's result. -/
theorem C8_partial_failure_behavior
    (hmacSha256 : String → List Nat → Except String (List Nat))
    (b64encode : List Nat → String) (cfg : Config) (up : Upstream)
    (jsonParse : List Nat → ParseOutcome) (body_bytes : List Nat)
    (hmac_hdr : Option String) (data : Payload) (g : String) (q : ℚ) (url : String)
    (hver : verify_webhook_signature hmacSha256 b64encode cfg.SHOPIFY_WEBHOOK_SECRET
      body_bytes hmac_hdr = true)
    (hparse : jsonParse body_bytes = ParseOutcome.ok data)
    (hid : data.id.getD 0 ≠ 0)
    (hgw : data.payment_gateway_names.head? = some g)
    (hg : g ≠ "")
    (hmatch : g = cfg.MANUAL_PAYMENT_GATEWAY_NAME)
    (hamt : get_order_amount cfg.SHOPIFY_STORE_URL cfg.SHOPIFY_API_TOKEN up.orders_get
      = some q)
    (hqpos : 0 < q)
    (hcreate : up.payment_link_create = CreateResult.ok url) :
    (update_shopify_order_note cfg.SHOPIFY_STORE_URL cfg.SHOPIFY_API_TOKEN
        (data.id.getD 0) (note_text url) up.order_put_ok = false →
      shopify_webhook hmacSha256 b64encode cfg up jsonParse body_bytes hmac_hdr
        (some "orders/create")
        = (⟨"Link generated, but failed to update order.", 200⟩,
           [Call.fetchAmount (data.id.getD 0),
            Call.createLink (data.id.getD 0) (pyInt (q * 100)),
            Call.updateNote (data.id.getD 0) (note_text url)])) ∧
    (update_shopify_order_note cfg.SHOPIFY_STORE_URL cfg.SHOPIFY_API_TOKEN
        (data.id.getD 0) (note_text url) up.order_put_ok = true →
      pyTruthy data.customer_email = true →
      shopify_webhook hmacSha256 b64encode cfg up jsonParse body_bytes hmac_hdr
        (some "orders/create")
        = (⟨"Payment link generated and order updated.", 200⟩,
           [Call.fetchAmount (data.id.getD 0),
            Call.createLink (data.id.getD 0) (pyInt (q * 100)),
            Call.updateNote (data.id.getD 0) (note_text url),
            Call.sendEmail (data.customer_email.getD "") (data.id.getD 0) url])) ∧
    (∀ b : Bool,
      shopify_webhook hmacSha256 b64encode cfg
          ⟨up.orders_get, up.payment_link_create, up.order_put_ok, b⟩
          jsonParse body_bytes hmac_hdr (some "orders/create")
        = shopify_webhook hmacSha256 b64encode cfg up jsonParse body_bytes hmac_hdr
            (some "orders/create")) := by
  have hbridge := shopify_webhook_authenticated hmacSha256 b64encode cfg up jsonParse
    body_bytes hmac_hdr (some "orders/create") data hver hparse
  subst hmatch
  have hnle : ¬(q ≤ 0) := not_le.mpr hqpos
  refine ⟨?_, ?_, ?_⟩
  · intro hupd
    rw [hbridge]
    simp [handle_order_event, hamt, hid, hgw, pyTruthy, hg, hnle, hcreate, hupd]
  · intro hupd hmail
    rw [hbridge]
    simp [pyTruthy] at hmail
    simp [handle_order_event, hamt, hid, hgw, pyTruthy, hg, hnle, hcreate, hupd, hmail]
  · intro b
    rfl

/-- Witness for the amended C8 at a concrete input: with a failing
order-note update, the run ends 200 with no email attempt and the
creation call retained. -/
theorem C8_partial_failure_behavior_witness :
    shopify_webhook exHmac exB64 exCfg (exUp "https://buy.stripe.example/a" false)
      exParse [2] (some "52") (some "orders/create")
      = (⟨"Link generated, but failed to update order.", 200⟩,
         [Call.fetchAmount 1001, Call.createLink 1001 (pyInt (150 * 100)),
          Call.updateNote 1001 (note_text "https://buy.stripe.example/a")]) :=
  (C8_partial_failure_behavior exHmac exB64 exCfg (exUp "https://buy.stripe.example/a" false)
    exParse [2] (some "52") exPayload "Pay via ACH" 150 "https://buy.stripe.example/a"
    (by decide) rfl (by decide) rfl (by decide) rfl
    (by simp [get_order_amount, exCfg, exUp, pyTruthy, parseDecimal_onefifty])
    (by norm_num) rfl).1 rfl

/-- Claim C1 evaluation at the failing input: the handler is a pure
function with no order-keyed registry, so each of two deliveries of the
same order-created event for order 1001 issues its own Stripe creation
call (two creations in total), and when Stripe returns distinct URLs the
two deliveries write different artifact URLs to the order. -/
theorem C1_duplicate_delivery_double_creation :
    (shopify_webhook exHmac exB64 exCfg (exUp "https://buy.stripe.example/a" true)
      exParse [] (some "5") (some "orders/create")).2
      = [Call.fetchAmount 1001, Call.createLink 1001 15000,
         Call.updateNote 1001 (note_text "https://buy.stripe.example/a"),
         Call.sendEmail "customer@example.com" 1001 "https://buy.stripe.example/a"] ∧
    (shopify_webhook exHmac exB64 exCfg (exUp "https://buy.stripe.example/b" true)
      exParse [] (some "5") (some "orders/create")).2
      = [Call.fetchAmount 1001, Call.createLink 1001 15000,
         Call.updateNote 1001 (note_text "https://buy.stripe.example/b"),
         Call.sendEmail "customer@example.com" 1001 "https://buy.stripe.example/b"] ∧
    countCreate
      ((shopify_webhook exHmac exB64 exCfg (exUp "https://buy.stripe.example/a" true)
        exParse [] (some "5") (some "orders/create")).2 ++
       (shopify_webhook exHmac exB64 exCfg (exUp "https://buy.stripe.example/b" true)
        exParse [] (some "5") (some "orders/create")).2) = 2 ∧
    (shopify_webhook exHmac exB64 exCfg (exUp "https://buy.stripe.example/a" true)
      exParse [] (some "5") (some "orders/create")).2
      ≠ (shopify_webhook exHmac exB64 exCfg (exUp "https://buy.stripe.example/b" true)
          exParse [] (some "5") (some "orders/create")).2 := by
  have htr : ∀ u : String,
      (shopify_webhook exHmac exB64 exCfg (exUp u true)
        exParse [] (some "5") (some "orders/create")).2
      = [Call.fetchAmount 1001, Call.createLink 1001 15000,
         Call.updateNote 1001 (note_text u),
         Call.sendEmail "customer@example.com" 1001 u] := by
    intro u
    rw [shopify_webhook_authenticated exHmac exB64 exCfg (exUp u true) exParse []
      (some "5") (some "orders/create") exPayload (by decide) rfl]
    simp [handle_order_event, exCfg, exPayload, exUp, get_order_amount, pyTruthy,
      parseDecimal_onefifty, pyInt_onefifty, update_shopify_order_note,
      show ¬((150 : ℚ) ≤ 0) by norm_num]
  refine ⟨htr _, htr _, ?_, ?_⟩
  · rw [htr, htr]
    rfl
  · rw [htr, htr]
    simp [note_text]
